import Mathlib

/-!
Verification of the Cosmos DB MCP server (`src/main.py`) against its
natural-language specification.

The module shallowly embeds the Python source: Python values become the
inductive `PyVal`, Python exceptions become `PyError`, the Azure Cosmos SDK
(an external collaborator) becomes the oracle structure `CosmosEnv`, and the
server's mutable handles (`cosmos_client`, `database`, `container`) become
`ConnectorState`.  Each request handler is translated into a pure function
that threads the state explicitly and returns `Except`/response values;
`Except.error` models an exception propagating out of the handler.
-/

/-- A Python runtime value, restricted to the shapes exchanged by the server:
`None`, booleans, integers, strings, lists, and string-keyed dicts. -/
inductive PyVal where
  | none : PyVal
  | bool (b : Bool) : PyVal
  | int (n : Int) : PyVal
  | str (s : String) : PyVal
  | list (xs : List PyVal) : PyVal
  | dict (fields : List (String × PyVal)) : PyVal

/-- Python `dict.get`: lookup returning `Option`. -/
def PyVal.get? : PyVal → String → Option PyVal
  | .dict fields, k => fields.lookup k
  | _, _ => Option.none

/-- A single-quote character, used by the Python `repr` of strings. -/
def squote : String := String.singleton (Char.ofNat 39)

mutual

/-- Python `repr` of a value (also `str` for non-string values):
single-quoted strings, `True`/`False`, bracketed lists, braced dicts. -/
def pyRepr : PyVal → String
  | .none => "None"
  | .bool b => if b then "True" else "False"
  | .int n => toString n
  | .str s => squote ++ s ++ squote
  | .list xs => "[" ++ pyReprList xs ++ "]"
  | .dict fields => "\x7b" ++ pyReprFields fields ++ "\x7d"

/-- Comma-separated `repr` of list elements. -/
def pyReprList : List PyVal → String
  | [] => ""
  | [x] => pyRepr x
  | x :: xs => pyRepr x ++ ", " ++ pyReprList xs

/-- Comma-separated `repr` of dict entries. -/
def pyReprFields : List (String × PyVal) → String
  | [] => ""
  | [(k, v)] => squote ++ k ++ squote ++ ": " ++ pyRepr v
  | (k, v) :: fields => squote ++ k ++ squote ++ ": " ++ pyRepr v ++ ", " ++ pyReprFields fields

end

/-- Python `str(v)`, as used by f-string interpolation: identity on strings,
`repr` on everything else. -/
def pyToStr : PyVal → String
  | .str s => s
  | v => pyRepr v

/-- The Python exceptions that can flow through the server.
`invalidArgument` appears only in the specification's error taxonomy
(`InvalidArgumentError`); the source never raises it — it is declared so that
statements about the taxonomy can be expressed. -/
inductive PyError where
  | keyError (k : String) : PyError
  | valueError (msg : String) : PyError
  | runtimeError (msg : String) : PyError
  | cosmosError (msg : String) : PyError
  | invalidArgument (msg : String) : PyError

/-- Python `str(e)` for an exception: `KeyError` renders as the quoted key,
the others render as their message. -/
def PyError.toStr : PyError → String
  | .keyError k => squote ++ k ++ squote
  | .valueError msg => msg
  | .runtimeError msg => msg
  | .cosmosError msg => msg
  | .invalidArgument msg => msg

/-- Whether an exception is the spec taxonomy's `InvalidArgumentError`. -/
def PyError.isInvalidArgument : PyError → Bool
  | .invalidArgument _ => true
  | _ => false

/-- Whether an `Except` result failed with `InvalidArgumentError`. -/
def errIsInvalidArgument : Except PyError PyVal → Bool
  | .error e => e.isInvalidArgument
  | .ok _ => false

/-- The external Azure Cosmos DB service, as an oracle for the four SDK
operations the server issues: `database.read()`, `container.read()`,
`container.query_items(query, parameters?)` (the collected item list), and
`container.read_item(item, partition_key)`. -/
structure CosmosEnv where
  dbRead : Except PyError PyVal
  containerRead : Except PyError PyVal
  queryItems : PyVal → Option PyVal → Except PyError (List PyVal)
  readItem : PyVal → PyVal → Except PyError PyVal

/-- The server's mutable connection handles (`self.cosmos_client`,
`self.database`, `self.container`); each is `none` until assigned. -/
structure ConnectorState where
  cosmos_client : Option Unit
  database : Option Unit
  container : Option Unit
deriving DecidableEq

/-- The state after `CosmosDBMCPServer.__init__`: all three handles unset. -/
def initialState : ConnectorState := ⟨Option.none, Option.none, Option.none⟩

/-- Embeds `_initialize_cosmos_client`: assigns all three handles, then performs the
verification read `await self.database.read()`.  The assignments happen before
the read, so on a failed verification the handles remain set and the exception
is re-raised (returned as `some e`). -/
def initializeCosmosClient (env : CosmosEnv) (_st : ConnectorState) :
    ConnectorState × Option PyError :=
  let st2 : ConnectorState := ⟨some (), some (), some ()⟩
  match env.dbRead with
  | .ok _ => (st2, Option.none)
  | .error e => (st2, some e)

/-- The guard `if not self.cosmos_client: await self._initialize_cosmos_client()`
that precedes every request-handling path. -/
def ensureClient (env : CosmosEnv) (st : ConnectorState) :
    ConnectorState × Option PyError :=
  if st.cosmos_client.isSome then (st, Option.none)
  else initializeCosmosClient env st

/-- Tool-call arguments: the `arguments: dict` of a tool call. -/
abbrev Args : Type := List (String × PyVal)

/-- Python subscript `arguments[k]`: a missing key raises `KeyError`. -/
def Args.getItem (args : Args) (k : String) : Except PyError PyVal :=
  match List.lookup k args with
  | some v => .ok v
  | Option.none => .error (.keyError k)

/-- Python `arguments.get(k, d)`: lookup with a default. -/
def Args.getD (args : Args) (k : String) (d : PyVal) : PyVal :=
  (List.lookup k args).getD d

/-- Embeds `_query_documents`: reads `query` (required, `KeyError` when absent),
`parameters` (default `[]`) and `cross_partition` (default `True`, read but
never forwarded), runs the query, and returns
`{query, result_count, documents}`. -/
def queryDocuments (env : CosmosEnv) (st : ConnectorState) (args : Args) :
    Except PyError PyVal :=
  if st.container.isNone then .error (.runtimeError "Container not initialized")
  else
    match args.getItem "query" with
    | .error e => .error e
    | .ok query =>
      let parameters := args.getD "parameters" (.list [])
      let _cross_partition := args.getD "cross_partition" (.bool true)
      match env.queryItems query (some parameters) with
      | .error e => .error e
      | .ok items =>
        .ok (.dict [("query", query),
                    ("result_count", .int items.length),
                    ("documents", .list items)])

/-- Embeds `_read_document`: reads `document_id` then `partition_key` (both required,
`KeyError` when absent), performs the point read, and returns
`{status: "found", document}`. -/
def readDocument (env : CosmosEnv) (st : ConnectorState) (args : Args) :
    Except PyError PyVal :=
  if st.container.isNone then .error (.runtimeError "Container not initialized")
  else
    match args.getItem "document_id" with
    | .error e => .error e
    | .ok document_id =>
      match args.getItem "partition_key" with
      | .error e => .error e
      | .ok partition_key =>
        match env.readItem document_id partition_key with
        | .error e => .error e
        | .ok document =>
          .ok (.dict [("status", .str "found"), ("document", document)])

/-- The count query issued by `_get_container_statistics`. -/
def countQueryText : String := "SELECT VALUE COUNT(1) FROM c"

/-- The error-shaped payload `{"error": f"Failed to get statistics: {e}"}`. -/
def statsErrorDict (e : PyError) : PyVal :=
  .dict [("error", .str ("Failed to get statistics: " ++ e.toStr))]

/-- Embeds `_get_container_statistics`: outside its `try`, raises `RuntimeError` when
the container handle is unset; inside, reads container properties, runs the
count query, and builds the statistics dict — any exception in those sub-steps
is swallowed into `{"error": ...}`. -/
def getContainerStatistics (env : CosmosEnv) (st : ConnectorState) :
    Except PyError PyVal :=
  if st.container.isNone then .error (.runtimeError "Container not initialized")
  else
    .ok (match env.containerRead with
      | .error e => statsErrorDict e
      | .ok container_props =>
        match env.queryItems (.str countQueryText) Option.none with
        | .error e => statsErrorDict e
        | .ok count_result =>
          match container_props.get? "id" with
          | Option.none => statsErrorDict (.keyError "id")
          | some container_id =>
            .dict [("container_id", container_id),
                   ("partition_key", (container_props.get? "partitionKey").getD (.dict [])),
                   ("document_count", count_result.headD (.int 0)),
                   ("indexing_policy", (container_props.get? "indexingPolicy").getD (.dict [])),
                   ("created_timestamp", (container_props.get? "_ts").getD .none)])

/-- An MCP resource descriptor as declared by the server. -/
structure MCPResource where
  uri : String
  name : String
  description : String
  mimeType : String
deriving DecidableEq

/-- An MCP tool descriptor: name, description, and JSON-schema input
contract. -/
structure MCPTool where
  name : String
  description : String
  inputSchema : PyVal

/-- Embeds `handle_list_resources` (stdio): the fixed three-element resource
catalog, rebuilt on every call; it reads no server state. -/
def handle_list_resources (_st : ConnectorState) : List MCPResource :=
  [⟨"cosmosdb://database", "Database Info",
    "Information about the connected Cosmos DB database", "application/json"⟩,
   ⟨"cosmosdb://container", "Container Info",
    "Information about the connected Cosmos DB container", "application/json"⟩,
   ⟨"cosmosdb://documents", "Documents",
    "Access to documents in the container", "application/json"⟩]

/-- The `cosmosdb://database` branch of resource reading: formats the database
id and the creation timestamp (default N/A); the id subscript raises
`KeyError` when the key is absent. -/
def databaseInfoText (env : CosmosEnv) : Except PyError String :=
  match env.dbRead with
  | .error e => .error e
  | .ok db_info =>
    match db_info.get? "id" with
    | Option.none => .error (.keyError "id")
    | some idv =>
      .ok ("Database: " ++ pyToStr idv ++ "\nCreated: "
           ++ pyToStr ((db_info.get? "_ts").getD (.str "N/A")))

/-- The `cosmosdb://container` branch: formats the container id and the
partition-key definition (default N/A); the id subscript raises `KeyError`
when the key is absent. -/
def containerInfoText (env : CosmosEnv) : Except PyError String :=
  match env.containerRead with
  | .error e => .error e
  | .ok container_info =>
    match container_info.get? "id" with
    | Option.none => .error (.keyError "id")
    | some idv =>
      .ok ("Container: " ++ pyToStr idv ++ "\nPartition Key: "
           ++ pyToStr ((container_info.get? "partitionKey").getD (.str "N/A")))

/-- The `cosmosdb://documents` branch: runs `SELECT TOP 10 * FROM c` and
formats the collected items. -/
def documentsSampleText (env : CosmosEnv) : Except PyError String :=
  match env.queryItems (.str "SELECT TOP 10 * FROM c") Option.none with
  | .error e => .error e
  | .ok items =>
    .ok ("Sample documents (first 10):\n" ++ pyToStr (.list items))

/-- The body of resource reading after initialization: checks the
database/container handles, then resolves the URI by exact string match;
an unrecognized URI raises `ValueError`. -/
def readResourceBody (env : CosmosEnv) (st2 : ConnectorState) (uri : String) :
    Except PyError String :=
  if st2.database.isNone || st2.container.isNone then
    .error (.runtimeError "Database or container not initialized")
  else if uri = "cosmosdb://database" then databaseInfoText env
  else if uri = "cosmosdb://container" then containerInfoText env
  else if uri = "cosmosdb://documents" then documentsSampleText env
  else .error (.valueError ("Unknown resource URI: " ++ uri))

/-- Embeds `handle_read_resource` (stdio): lazy initialization, then `readResourceBody`;
an exception anywhere propagates (the handler has no `try`). -/
def handle_read_resource (env : CosmosEnv) (st : ConnectorState) (uri : String) :
    ConnectorState × Except PyError String :=
  let st2 := (ensureClient env st).1
  (st2,
    match (ensureClient env st).2 with
    | some e => .error e
    | Option.none => readResourceBody env st2 uri)

/-- Embeds `handle_list_tools` (stdio): the fixed tool catalog, rebuilt on every
call; it reads no server state. -/
def handle_list_tools (_st : ConnectorState) : List MCPTool :=
  [⟨"query_documents", "Execute a SQL query against Cosmos DB documents",
    .dict [("type", .str "object"),
           ("properties", .dict
             [("query", .dict [("type", .str "string"),
                               ("description", .str "SQL query to execute")]),
              ("parameters", .dict [("type", .str "array"),
                                    ("items", .dict [("type", .str "object")]),
                                    ("description", .str "Optional query parameters")]),
              ("cross_partition", .dict [("type", .str "boolean"),
                                         ("description", .str "Enable cross-partition query"),
                                         ("default", .bool true)])]),
           ("required", .list [.str "query"])]⟩,
   ⟨"read_document", "Read a specific document by ID",
    .dict [("type", .str "object"),
           ("properties", .dict
             [("document_id", .dict [("type", .str "string"),
                                     ("description", .str "Document ID to read")]),
              ("partition_key", .dict [("type", .str "string"),
                                       ("description", .str "Partition key value")])]),
           ("required", .list [.str "document_id", .str "partition_key"])]⟩,
   ⟨"get_container_statistics", "Get statistics about the container",
    .dict [("type", .str "object"),
           ("properties", .dict []),
           ("required", .list [])]⟩]

/-- A `TextContent` item of a tool-call response. -/
structure TextContentItem where
  type : String
  text : String
deriving DecidableEq

/-- The shared dispatch of a tool name to its operation, shared verbatim by
the stdio and HTTP variants: three recognized names, otherwise
`ValueError(f"Unknown tool: {name}")`. -/
def dispatchTool (env : CosmosEnv) (st : ConnectorState) (name : String) (args : Args) :
    Except PyError PyVal :=
  if name = "query_documents" then queryDocuments env st args
  else if name = "read_document" then readDocument env st args
  else if name = "get_container_statistics" then getContainerStatistics env st
  else .error (.valueError ("Unknown tool: " ++ name))

/-- Embeds `handle_call_tool` (stdio): lazy initialization happens before the `try`
block, so an initialization failure propagates; inside the `try`, any
exception from dispatch becomes a `TextContent` error message
`f"Error executing {name}: {e}"`. -/
def handle_call_tool (env : CosmosEnv) (st : ConnectorState) (name : String) (args : Args) :
    ConnectorState × Except PyError (List TextContentItem) :=
  let st2 := (ensureClient env st).1
  (st2,
    match (ensureClient env st).2 with
    | some e => .error e
    | Option.none =>
      match dispatchTool env st2 name args with
      | .ok result => .ok [⟨"text", pyToStr result⟩]
      | .error e => .ok [⟨"text", "Error executing " ++ name ++ ": " ++ e.toStr⟩])

/-- An HTTP route outcome: a 200 body, or a `JSONResponse` with an `error`
payload and a status code. -/
inductive HttpResult (α : Type) where
  | ok (body : α) : HttpResult α
  | jsonError (status : Nat) (error : String) : HttpResult α
deriving DecidableEq

/-- Route `GET /`: the static identity payload. -/
def http_root : PyVal :=
  .dict [("name", .str "Cosmos DB MCP Server"),
         ("version", .str "1.0.0"),
         ("description", .str "Model Context Protocol server for Azure Cosmos DB")]

/-- Route `GET /health`: inside a `try`, lazily initializes, re-reads the database
when the handle is set, and reports healthy; any exception becomes an
unhealthy payload (the route never raises). -/
def http_health (env : CosmosEnv) (st : ConnectorState) : ConnectorState × PyVal :=
  let st2 := (ensureClient env st).1
  (st2,
    match (ensureClient env st).2 with
    | some e => .dict [("status", .str "unhealthy"), ("error", .str e.toStr)]
    | Option.none =>
      if st2.database.isSome then
        match env.dbRead with
        | .error e => .dict [("status", .str "unhealthy"), ("error", .str e.toStr)]
        | .ok _ => .dict [("status", .str "healthy"), ("database", .str "connected")]
      else .dict [("status", .str "healthy"), ("database", .str "connected")])

/-- Route `GET /mcp/resources`: the HTTP variant's independently hard-coded copy of
the three-element resource catalog, always returned with status 200. -/
def http_list_resources (_st : ConnectorState) : HttpResult (List MCPResource) :=
  .ok [⟨"cosmosdb://database", "Database Info",
        "Information about the connected Cosmos DB database", "application/json"⟩,
       ⟨"cosmosdb://container", "Container Info",
        "Information about the connected Cosmos DB container", "application/json"⟩,
       ⟨"cosmosdb://documents", "Documents",
        "Access to documents in the container", "application/json"⟩]

/-- Route `GET /mcp/resources/\x7bpath\x7d`: prefixes the path with `cosmosdb://`, resolves
it by the same exact matches as the stdio handler, and converts any exception
into a 500 `JSONResponse` with `{"error": str(e)}`. -/
def http_read_resource (env : CosmosEnv) (st : ConnectorState) (resource_path : String) :
    ConnectorState × HttpResult String :=
  let st2 := (ensureClient env st).1
  (st2,
    match (ensureClient env st).2 with
    | some e => .jsonError 500 e.toStr
    | Option.none =>
      match readResourceBody env st2 ("cosmosdb://" ++ resource_path) with
      | .ok content => .ok content
      | .error e => .jsonError 500 e.toStr)

/-- Route `GET /mcp/tools`: the HTTP variant's independently hard-coded tool
catalog — the same three entries as the stdio catalog. -/
def http_list_tools (_st : ConnectorState) : HttpResult (List MCPTool) :=
  .ok [⟨"query_documents", "Execute a SQL query against Cosmos DB documents",
        .dict [("type", .str "object"),
               ("properties", .dict
                 [("query", .dict [("type", .str "string"),
                                   ("description", .str "SQL query to execute")]),
                  ("parameters", .dict [("type", .str "array"),
                                        ("items", .dict [("type", .str "object")]),
                                        ("description", .str "Optional query parameters")]),
                  ("cross_partition", .dict [("type", .str "boolean"),
                                             ("description", .str "Enable cross-partition query"),
                                             ("default", .bool true)])]),
               ("required", .list [.str "query"])]⟩,
       ⟨"read_document", "Read a specific document by ID",
        .dict [("type", .str "object"),
               ("properties", .dict
                 [("document_id", .dict [("type", .str "string"),
                                         ("description", .str "Document ID to read")]),
                  ("partition_key", .dict [("type", .str "string"),
                                           ("description", .str "Partition key value")])]),
               ("required", .list [.str "document_id", .str "partition_key"])]⟩,
       ⟨"get_container_statistics", "Get statistics about the container",
        .dict [("type", .str "object"),
               ("properties", .dict []),
               ("required", .list [])]⟩]

/-- Route `POST /mcp/tools/\x7btool_name\x7d`: everything, including lazy initialization,
runs inside the `try`, so every exception — initialization failure, missing
argument, database error, or unknown tool name — becomes a 500 `JSONResponse`
with `{"error": f"Error executing {tool_name}: {e}"}`; the route never
raises. -/
def http_call_tool (env : CosmosEnv) (st : ConnectorState) (tool_name : String) (args : Args) :
    ConnectorState × HttpResult (List TextContentItem) :=
  let st2 := (ensureClient env st).1
  (st2,
    match (ensureClient env st).2 with
    | some e => .jsonError 500 ("Error executing " ++ tool_name ++ ": " ++ e.toStr)
    | Option.none =>
      match dispatchTool env st2 tool_name args with
      | .ok result => .ok [⟨"text", pyToStr result⟩]
      | .error e => .jsonError 500 ("Error executing " ++ tool_name ++ ": " ++ e.toStr))

/-- One incoming request, over either transport. -/
inductive Request where
  | listResources : Request
  | readResource (uri : String) : Request
  | listTools : Request
  | callTool (name : String) (args : Args) : Request
  | httpRoot : Request
  | httpHealth : Request
  | httpListResources : Request
  | httpReadResource (path : String) : Request
  | httpListTools : Request
  | httpCallTool (name : String) (args : Args) : Request

/-- The connector state left behind by handling one request. -/
def applyRequest (env : CosmosEnv) (st : ConnectorState) : Request → ConnectorState
  | .listResources => st
  | .readResource uri => (handle_read_resource env st uri).1
  | .listTools => st
  | .callTool name args => (handle_call_tool env st name args).1
  | .httpRoot => st
  | .httpHealth => (http_health env st).1
  | .httpListResources => st
  | .httpReadResource path => (http_read_resource env st path).1
  | .httpListTools => st
  | .httpCallTool name args => (http_call_tool env st name args).1

/-- Connector states reachable from process start by any sequence of requests
against any environments. -/
inductive ReachableState : ConnectorState → Prop where
  | init : ReachableState initialState
  | step {st : ConnectorState} (env : CosmosEnv) (r : Request) :
      ReachableState st → ReachableState (applyRequest env st r)

/-- The handle-synchronization invariant: the three handles are all unset or
all set. -/
def StateSync (st : ConnectorState) : Prop :=
  (st.cosmos_client = Option.none ∧ st.database = Option.none ∧ st.container = Option.none)
  ∨ (st.cosmos_client = some () ∧ st.database = some () ∧ st.container = some ())

/-- The fully-initialized connector state. -/
def readyState : ConnectorState := ⟨some (), some (), some ()⟩

/-- A healthy environment used to instantiate theorems on concrete inputs:
every SDK operation succeeds. -/
def envOk : CosmosEnv where
  dbRead := .ok (.dict [("id", .str "appdb"), ("_ts", .int 1700000000)])
  containerRead := .ok (.dict
    [("id", .str "items"),
     ("partitionKey", .dict [("paths", .list [.str "/pk"])]),
     ("indexingPolicy", .dict [("automatic", .bool true)]),
     ("_ts", .int 1700000001)])
  queryItems := fun _ _ => .ok [.dict [("id", .str "d1")], .dict [("id", .str "d2")]]
  readItem := fun _ _ => .ok (.dict [("id", .str "d1")])

/-- A failing environment: the database connects but container reads and
queries raise SDK errors. -/
def envErr : CosmosEnv where
  dbRead := .ok (.dict [("id", .str "appdb")])
  containerRead := .error (.cosmosError "container read failed")
  queryItems := fun _ _ => .error (.cosmosError "query failed")
  readItem := fun _ _ => .error (.cosmosError "document not found")

theorem initializeCosmosClient_fst (env : CosmosEnv) (st : ConnectorState) :
    (initializeCosmosClient env st).1 = readyState := by
  unfold initializeCosmosClient readyState
  cases env.dbRead <;> rfl

theorem ensureClient_fst (env : CosmosEnv) (st : ConnectorState) :
    (ensureClient env st).1 = st ∨ (ensureClient env st).1 = readyState := by
  unfold ensureClient
  by_cases h : st.cosmos_client.isSome
  · left; simp [h]
  · right; simp [h, initializeCosmosClient_fst]

theorem ensureClient_of_isSome (env : CosmosEnv) (st : ConnectorState)
    (h : st.cosmos_client.isSome) : ensureClient env st = (st, Option.none) := by
  unfold ensureClient
  simp [h]

theorem applyRequest_fst (env : CosmosEnv) (st : ConnectorState) (r : Request) :
    applyRequest env st r = st ∨ applyRequest env st r = readyState := by
  cases r <;>
    simp only [applyRequest, handle_read_resource, handle_call_tool, http_health,
      http_read_resource, http_call_tool] <;>
    first
      | exact Or.inl rfl
      | exact Or.inl trivial
      | exact ensureClient_fst env st

/-- Extracts the 200 body of an HTTP result, with a default for the error
case. -/
def HttpResult.bodyD {α : Type} (r : HttpResult α) (d : α) : α :=
  match r with
  | .ok b => b
  | .jsonError _ _ => d

/-- C1: for every tool name outside the Tool Catalog, `call_tool` returns an
error result and never raises to the transport layer — the stdio dispatcher
(whenever the pre-dispatch lazy initialization step succeeds; an
initialization failure is a connection error independent of the tool name)
returns a `TextContent` error message, and the HTTP route returns a 500
response with an error payload, whether or not initialization succeeds. -/
theorem unknown_tool_is_error_result (env : CosmosEnv) (st : ConnectorState)
    (name : String) (args : Args)
    (h1 : name ≠ "query_documents") (h2 : name ≠ "read_document")
    (h3 : name ≠ "get_container_statistics") :
    (∀ st2, ensureClient env st = (st2, Option.none) →
      handle_call_tool env st name args =
        (st2, .ok [⟨"text", "Error executing " ++ name ++ ": " ++ ("Unknown tool: " ++ name)⟩])) ∧
    (∀ st2, ensureClient env st = (st2, Option.none) →
      http_call_tool env st name args =
        (st2, .jsonError 500 ("Error executing " ++ name ++ ": " ++ ("Unknown tool: " ++ name)))) ∧
    (∀ st2 e, ensureClient env st = (st2, some e) →
      http_call_tool env st name args =
        (st2, .jsonError 500 ("Error executing " ++ name ++ ": " ++ e.toStr))) := by
  refine ⟨fun st2 hok => ?_, fun st2 hok => ?_, fun st2 e herr => ?_⟩
  · simp [handle_call_tool, hok, dispatchTool, h1, h2, h3, PyError.toStr]
  · simp [http_call_tool, hok, dispatchTool, h1, h2, h3, PyError.toStr]
  · simp [http_call_tool, herr]

/-- Witness for the unknown-tool property at the concrete name
`drop_container` against the healthy environment. -/
theorem unknown_tool_is_error_result_witness :
    handle_call_tool envOk initialState "drop_container" [] =
      (readyState, .ok [⟨"text",
        "Error executing " ++ "drop_container" ++ ": " ++ ("Unknown tool: " ++ "drop_container")⟩]) ∧
    http_call_tool envOk initialState "drop_container" [] =
      (readyState, .jsonError 500
        ("Error executing " ++ "drop_container" ++ ": " ++ ("Unknown tool: " ++ "drop_container"))) := by
  have h := unknown_tool_is_error_result envOk initialState "drop_container" []
    (by decide) (by decide) (by decide)
  exact ⟨h.1 readyState rfl, h.2.1 readyState rfl⟩

/-- C2 counterexample: the Tool Catalog does not declare six entries (and the
HTTP variant does not declare five): both variants declare exactly three, and
`create_document` is not among them. -/
theorem tool_catalog_not_six_entries :
    ((handle_list_tools initialState).map MCPTool.name).length = 3 ∧
    "create_document" ∉ (handle_list_tools initialState).map MCPTool.name ∧
    (((http_list_tools initialState).bodyD []).map MCPTool.name).length = 3 := by
  refine ⟨rfl, ?_, rfl⟩
  decide

/-- C2 (amended): the Tool Catalog declares three entries — `query_documents`,
`read_document`, `get_container_statistics` — and the HTTP variant declares
the same three; every call to `list_tools` returns exactly that set of
names. -/
theorem tool_catalog_three_entries (st st2 : ConnectorState) :
    (handle_list_tools st).map MCPTool.name =
      ["query_documents", "read_document", "get_container_statistics"] ∧
    ((http_list_tools st).bodyD []).map MCPTool.name =
      ["query_documents", "read_document", "get_container_statistics"] ∧
    handle_list_tools st = handle_list_tools st2 ∧
    http_list_tools st = http_list_tools st2 :=
  ⟨rfl, rfl, rfl, rfl⟩

/-- C3 counterexample: calling `_query_documents` with empty arguments fails
with the raw `KeyError` coming from the argument lookup, which is not the
taxonomy's `InvalidArgumentError`. -/
theorem missing_required_field_not_invalid_argument :
    queryDocuments envOk readyState [] = .error (.keyError "query") ∧
    errIsInvalidArgument (queryDocuments envOk readyState []) = false :=
  ⟨rfl, rfl⟩

/-- C3 (amended): the input schemas declare `query` required for
`query_documents` and `document_id`/`partition_key` required for
`read_document`; a call whose arguments lack a required field fails with the
raw `KeyError` from the argument lookup before any database call is issued
(the result does not depend on the database environment), and the stdio
dispatch boundary converts that exception into an error result rather than
surfacing it to the transport. -/
theorem missing_required_field_keyerror (env : CosmosEnv) (st : ConnectorState) (args : Args)
    (hc : st.container = some ()) :
    ((handle_list_tools st).map fun t => t.inputSchema.get? "required") =
      [some (.list [.str "query"]),
       some (.list [.str "document_id", .str "partition_key"]),
       some (.list [])] ∧
    (List.lookup "query" args = Option.none →
      ∀ env2 : CosmosEnv, queryDocuments env2 st args = .error (.keyError "query")) ∧
    (List.lookup "document_id" args = Option.none →
      ∀ env2 : CosmosEnv, readDocument env2 st args = .error (.keyError "document_id")) ∧
    (∀ v, List.lookup "document_id" args = some v →
      List.lookup "partition_key" args = Option.none →
      ∀ env2 : CosmosEnv, readDocument env2 st args = .error (.keyError "partition_key")) ∧
    (st.cosmos_client = some () → List.lookup "query" args = Option.none →
      handle_call_tool env st "query_documents" args =
        (st, .ok [⟨"text",
          "Error executing query_documents: " ++ (PyError.keyError "query").toStr⟩])) := by
  refine ⟨rfl, fun hq env2 => ?_, fun hd env2 => ?_, fun v hd hp env2 => ?_, fun hcl hq => ?_⟩
  · simp [queryDocuments, Args.getItem, hq, hc]
  · simp [readDocument, Args.getItem, hd, hc]
  · simp [readDocument, Args.getItem, hd, hp, hc]
  · have hE := ensureClient_of_isSome env st (by simp [hcl])
    simp [handle_call_tool, hE, dispatchTool, queryDocuments, Args.getItem, hq, hc]

/-- Witness for the missing-required-field property at concrete calls with
empty or partial argument dicts. -/
theorem missing_required_field_keyerror_witness :
    queryDocuments envErr readyState [] = .error (.keyError "query") ∧
    readDocument envErr readyState [] = .error (.keyError "document_id") ∧
    readDocument envErr readyState [("document_id", .str "d1")] =
      .error (.keyError "partition_key") ∧
    handle_call_tool envOk readyState "query_documents" [] =
      (readyState, .ok [⟨"text",
        "Error executing query_documents: " ++ (PyError.keyError "query").toStr⟩]) := by
  have h0 := missing_required_field_keyerror envOk readyState [] rfl
  have h1 := missing_required_field_keyerror envErr readyState [] rfl
  have h2 := missing_required_field_keyerror envErr readyState
    [("document_id", .str "d1")] rfl
  exact ⟨h1.2.1 rfl envErr, h1.2.2.1 rfl envErr,
    h2.2.2.2.1 (.str "d1") rfl rfl envErr, h0.2.2.2.2 rfl rfl⟩

/-- C4: every successful `query_documents` call returns a mapping
`{query, result_count, documents}` where `query` is the input query,
`documents` is exactly the row list the database returned (no pagination cap
applied by the adapter), and `result_count` is its length. -/
theorem query_documents_success_shape (env : CosmosEnv) (st : ConnectorState)
    (args : Args) (qv : PyVal) (items : List PyVal)
    (hc : st.container = some ())
    (hq : List.lookup "query" args = some qv)
    (hdb : env.queryItems qv (some (args.getD "parameters" (.list []))) = .ok items) :
    queryDocuments env st args =
      .ok (.dict [("query", qv),
                  ("result_count", .int items.length),
                  ("documents", .list items)]) := by
  simp [queryDocuments, Args.getItem, hq, hc, hdb]

/-- Witness for the successful-query shape on a concrete two-row result. -/
theorem query_documents_success_shape_witness :
    queryDocuments envOk readyState [("query", .str "SELECT TOP 5 * FROM c")] =
      .ok (.dict [("query", .str "SELECT TOP 5 * FROM c"),
                  ("result_count", .int 2),
                  ("documents", .list [.dict [("id", .str "d1")],
                                       .dict [("id", .str "d2")]])]) :=
  query_documents_success_shape envOk readyState
    [("query", .str "SELECT TOP 5 * FROM c")] (.str "SELECT TOP 5 * FROM c")
    [.dict [("id", .str "d1")], .dict [("id", .str "d2")]] rfl rfl rfl

/-- An environment for exercising `get_container_statistics` on the success
path: the count query yields a single integer row. -/
def envStats : CosmosEnv where
  dbRead := .ok (.dict [("id", .str "appdb")])
  containerRead := .ok (.dict
    [("id", .str "items"),
     ("partitionKey", .dict [("paths", .list [.str "/pk"])]),
     ("indexingPolicy", .dict [("automatic", .bool true)]),
     ("_ts", .int 1700000001)])
  queryItems := fun _ _ => .ok [.int 42]
  readItem := fun _ _ => .ok .none

/-- C5: `get_container_statistics` swallows a failure of either sub-step
(container-properties read or count query) into a normally-returned result
carrying an `error` field, and on success returns the container id,
partition-key definition, document count, indexing policy and creation
timestamp, with no `error` field. -/
theorem container_statistics_error_swallowed (env : CosmosEnv) (st : ConnectorState)
    (hc : st.container = some ()) :
    (∀ e, env.containerRead = .error e →
      getContainerStatistics env st = .ok (statsErrorDict e) ∧
      (statsErrorDict e).get? "error" =
        some (.str ("Failed to get statistics: " ++ e.toStr))) ∧
    (∀ props e, env.containerRead = .ok props →
      env.queryItems (.str countQueryText) Option.none = .error e →
      getContainerStatistics env st = .ok (statsErrorDict e) ∧
      (statsErrorDict e).get? "error" =
        some (.str ("Failed to get statistics: " ++ e.toStr))) ∧
    (∀ props count_result idv, env.containerRead = .ok props →
      env.queryItems (.str countQueryText) Option.none = .ok count_result →
      props.get? "id" = some idv →
      ∃ r, getContainerStatistics env st = .ok r ∧
        r.get? "container_id" = some idv ∧
        r.get? "partition_key" = some ((props.get? "partitionKey").getD (.dict [])) ∧
        r.get? "document_count" = some (count_result.headD (.int 0)) ∧
        r.get? "indexing_policy" = some ((props.get? "indexingPolicy").getD (.dict [])) ∧
        r.get? "created_timestamp" = some ((props.get? "_ts").getD .none) ∧
        r.get? "error" = Option.none) := by
  refine ⟨fun e he => ?_, fun props e hp hq => ?_, fun props count_result idv hp hq hid => ?_⟩
  · constructor
    · simp [getContainerStatistics, hc, he]
    · rfl
  · constructor
    · simp [getContainerStatistics, hc, hp, hq]
    · rfl
  · refine ⟨.dict [("container_id", idv),
      ("partition_key", (props.get? "partitionKey").getD (.dict [])),
      ("document_count", count_result.headD (.int 0)),
      ("indexing_policy", (props.get? "indexingPolicy").getD (.dict [])),
      ("created_timestamp", (props.get? "_ts").getD .none)], ?_, rfl, ?_, ?_, ?_, ?_, ?_⟩
    · simp [getContainerStatistics, hc, hp, hq, hid]
    all_goals rfl

/-- Witness for the statistics contract: a failing container read is swallowed
into an error-bearing payload, and a healthy environment yields the success
shape with no error field. -/
theorem container_statistics_error_swallowed_witness :
    (getContainerStatistics envErr readyState =
      .ok (statsErrorDict (.cosmosError "container read failed")) ∧
     (statsErrorDict (.cosmosError "container read failed")).get? "error" =
      some (.str ("Failed to get statistics: "
        ++ (PyError.cosmosError "container read failed").toStr))) ∧
    (∃ r, getContainerStatistics envStats readyState = .ok r ∧
      r.get? "container_id" = some (.str "items") ∧
      r.get? "partition_key" = some (.dict [("paths", .list [.str "/pk"])]) ∧
      r.get? "document_count" = some (.int 42) ∧
      r.get? "indexing_policy" = some (.dict [("automatic", .bool true)]) ∧
      r.get? "created_timestamp" = some (.int 1700000001) ∧
      r.get? "error" = Option.none) := by
  constructor
  · exact (container_statistics_error_swallowed envErr readyState rfl).1
      (.cosmosError "container read failed") rfl
  · exact (container_statistics_error_swallowed envStats readyState rfl).2.2
      (.dict [("id", .str "items"),
              ("partitionKey", .dict [("paths", .list [.str "/pk"])]),
              ("indexingPolicy", .dict [("automatic", .bool true)]),
              ("_ts", .int 1700000001)])
      [.int 42] (.str "items") rfl rfl rfl

/-- C6: resource resolution is by exact string match against the three
recognized URIs — each resolves to its branch — and any unrecognized URI
fails with the unknown-resource error (the spec taxonomy's `NotFoundError`),
on both the stdio handler and the HTTP route (where the route returns it as a
500 error payload). -/
theorem read_resource_exact_string_match (env : CosmosEnv) (st : ConnectorState) (uri : String)
    (hcl : st.cosmos_client = some ()) (hd : st.database = some ())
    (hco : st.container = some ()) :
    (uri = "cosmosdb://database" →
      handle_read_resource env st uri = (st, databaseInfoText env)) ∧
    (uri = "cosmosdb://container" →
      handle_read_resource env st uri = (st, containerInfoText env)) ∧
    (uri = "cosmosdb://documents" →
      handle_read_resource env st uri = (st, documentsSampleText env)) ∧
    (uri ≠ "cosmosdb://database" → uri ≠ "cosmosdb://container" →
      uri ≠ "cosmosdb://documents" →
      handle_read_resource env st uri =
        (st, .error (.valueError ("Unknown resource URI: " ++ uri)))) ∧
    (∀ path, "cosmosdb://" ++ path ≠ "cosmosdb://database" →
      "cosmosdb://" ++ path ≠ "cosmosdb://container" →
      "cosmosdb://" ++ path ≠ "cosmosdb://documents" →
      http_read_resource env st path =
        (st, .jsonError 500 ("Unknown resource URI: " ++ ("cosmosdb://" ++ path)))) := by
  have hE := ensureClient_of_isSome env st (by simp [hcl])
  refine ⟨fun h => ?_, fun h => ?_, fun h => ?_, fun n1 n2 n3 => ?_, fun path n1 n2 n3 => ?_⟩
  · simp [handle_read_resource, hE, readResourceBody, hd, hco, h]
  · simp [handle_read_resource, hE, readResourceBody, hd, hco, h]
  · simp [handle_read_resource, hE, readResourceBody, hd, hco, h]
  · simp [handle_read_resource, hE, readResourceBody, hd, hco, n1, n2, n3]
  · simp [http_read_resource, hE, readResourceBody, hd, hco, n1, n2, n3, PyError.toStr]

/-- Witness for exact-match resource resolution: one recognized URI and one
unrecognized URI, on both transports. -/
theorem read_resource_exact_string_match_witness :
    handle_read_resource envOk readyState "cosmosdb://database" =
      (readyState, databaseInfoText envOk) ∧
    handle_read_resource envOk readyState "cosmosdb://droptables" =
      (readyState, .error (.valueError ("Unknown resource URI: " ++ "cosmosdb://droptables"))) ∧
    http_read_resource envOk readyState "droptables" =
      (readyState, .jsonError 500
        ("Unknown resource URI: " ++ ("cosmosdb://" ++ "droptables"))) := by
  have h := read_resource_exact_string_match envOk readyState "cosmosdb://droptables"
    rfl rfl rfl
  have h2 := read_resource_exact_string_match envOk readyState "cosmosdb://database"
    rfl rfl rfl
  exact ⟨h2.1 rfl, h.2.2.2.1 (by decide) (by decide) (by decide),
    h.2.2.2.2 "droptables" (by decide) (by decide) (by decide)⟩

/-- C7: initialization is idempotent — on any request handled while the client
handle is already set, the guarded initialization path performs no new
construction (the same pair is returned for every environment, so the
connection is not re-verified) and the client, database and container handles
are left unchanged by the request. -/
theorem initialization_idempotent (env : CosmosEnv) (st : ConnectorState)
    (hcl : st.cosmos_client.isSome) :
    ensureClient env st = (st, Option.none) ∧
    (∀ env2 : CosmosEnv, ensureClient env2 st = ensureClient env st) ∧
    (∀ r : Request, applyRequest env st r = st) := by
  have hE : ∀ env2 : CosmosEnv, ensureClient env2 st = (st, Option.none) :=
    fun env2 => ensureClient_of_isSome env2 st hcl
  refine ⟨hE env, fun env2 => (hE env2).trans (hE env).symm, fun r => ?_⟩
  cases r <;> simp only [applyRequest, handle_read_resource, handle_call_tool,
    http_health, http_read_resource, http_call_tool, hE env]

/-- Witness for idempotent initialization in the fully-initialized state. -/
theorem initialization_idempotent_witness :
    ensureClient envOk readyState = (readyState, Option.none) ∧
    applyRequest envOk readyState (.callTool "query_documents" []) = readyState ∧
    ensureClient envErr readyState = ensureClient envOk readyState := by
  have h := initialization_idempotent envOk readyState rfl
  exact ⟨h.1, h.2.2 _, h.2.1 envErr⟩

/-- C8: in every reachable connector state, the client, database and container
handles are either all unset or all set — no request sequence leaves the
connector partially initialized for use. -/
theorem reachable_handles_all_or_none (st : ConnectorState) (h : ReachableState st) :
    StateSync st := by
  induction h with
  | init => exact Or.inl ⟨rfl, rfl, rfl⟩
  | step env r _ ih =>
    rcases applyRequest_fst env _ r with he | he
    · rw [he]; exact ih
    · rw [he]; exact Or.inr ⟨rfl, rfl, rfl⟩

/-- Witness for the all-or-none invariant at the initial state. -/
theorem reachable_handles_all_or_none_witness : StateSync initialState :=
  reachable_handles_all_or_none initialState ReachableState.init

/-- C9: `list_resources` and `list_tools` are deterministic and idempotent on
both transports — every call returns the identical fixed three-element
resource catalog (Database Info, Container Info, Documents) in order,
rebuilt on each call, leaving the connector state untouched. -/
theorem list_catalogs_deterministic :
    (∀ st st2 : ConnectorState, handle_list_resources st = handle_list_resources st2) ∧
    (∀ st : ConnectorState, (handle_list_resources st).map MCPResource.name =
      ["Database Info", "Container Info", "Documents"]) ∧
    (∀ st : ConnectorState, (handle_list_resources st).length = 3) ∧
    (∀ st st2 : ConnectorState, handle_list_tools st = handle_list_tools st2) ∧
    (∀ st st2 : ConnectorState, http_list_resources st = http_list_resources st2) ∧
    (∀ st : ConnectorState, ((http_list_resources st).bodyD []).map MCPResource.name =
      ["Database Info", "Container Info", "Documents"]) ∧
    (∀ st st2 : ConnectorState, http_list_tools st = http_list_tools st2) ∧
    (∀ (env : CosmosEnv) (st : ConnectorState),
      applyRequest env st .listResources = st ∧ applyRequest env st .listTools = st ∧
      applyRequest env st .httpListResources = st ∧
      applyRequest env st .httpListTools = st) :=
  ⟨fun _ _ => rfl, fun _ => rfl, fun _ => rfl, fun _ _ => rfl, fun _ _ => rfl,
   fun _ => rfl, fun _ _ => rfl, fun _ _ => ⟨rfl, rfl, rfl, rfl⟩⟩

/-- C10: the `cross_partition` argument is read but never forwarded to the
database call, so the result of `query_documents` depends only on the `query`
and `parameters` entries of the argument dict — it is identical whether
`cross_partition` is true, false, or absent. -/
theorem cross_partition_no_influence (env : CosmosEnv) (st : ConnectorState) (a b : Args)
    (hq : List.lookup "query" a = List.lookup "query" b)
    (hp : List.lookup "parameters" a = List.lookup "parameters" b) :
    queryDocuments env st a = queryDocuments env st b := by
  simp only [queryDocuments, Args.getItem, Args.getD, hq, hp]

/-- Witness for `cross_partition` non-influence: the same query with
`cross_partition` true, false, and absent. -/
theorem cross_partition_no_influence_witness :
    queryDocuments envOk readyState
        [("query", .str "SELECT * FROM c"), ("cross_partition", .bool true)] =
      queryDocuments envOk readyState
        [("query", .str "SELECT * FROM c"), ("cross_partition", .bool false)] ∧
    queryDocuments envOk readyState
        [("query", .str "SELECT * FROM c"), ("cross_partition", .bool true)] =
      queryDocuments envOk readyState [("query", .str "SELECT * FROM c")] := by
  constructor
  · exact cross_partition_no_influence envOk readyState _ _ rfl rfl
  · exact cross_partition_no_influence envOk readyState _ _ rfl rfl
